import Mathlib

/-!
Verification of the NEET study tracker's core business logic:
the study-streak calculator, the chapter-completion roll-up rule,
the chapter-update and revision-logging routes, and the progress
percentage helpers, embedded shallowly from the Python source
(src/app.py, src/models.py).

Calendar dates are modelled as integers (day numbers); `timedelta(days=1)`
subtraction is integer subtraction.  The study-log table of a user is the
list of dates of that user's `StudyLog` rows, duplicates allowed (several
sessions may share a date).
-/

namespace NeetTracker

/-- One row of the `study_logs` table, restricted to the columns the streak
calculator consults: the owning user and the calendar date. -/
structure StudyLog where
  user_id : Nat
  date : Int
deriving DecidableEq, Repr

/-- The ambient state read by `calculate_study_streak` in app.py: the
`StudyLog` table (reached through `StudyLog.query`) and the system clock
date that `date.today()` returns at call time. -/
structure Env where
  studyLogs : List StudyLog
  sysToday : Int
deriving Repr

/-- The dates for which `StudyLog.query.filter_by(user_id=user_id, date=d).first()`
is truthy: dates of the given user's study-log rows. -/
def userStudyDates (env : Env) (uid : Nat) : List Int :=
  (env.studyLogs.filter (fun l => l.user_id == uid)).map (fun l => l.date)

/-- The `while True` loop of `calculate_study_streak` (app.py lines 113-121):
each call is one execution of the loop body at the given `check` date and
running `streak` counter.  If a log exists at `check`, the counter is
incremented and the walk moves one day back, unless the incremented counter
exceeds 365, in which case the loop breaks; if no log exists the loop breaks.
The structural `fuel` argument encodes termination of the `while True` loop:
the top-level call passes fuel 366 and keeps the invariant
`streak + fuel = 366`, so the fuel-exhausted branch is unreachable (the
`streak > 365` break always fires first). -/
def streakGo (dates : List Int) : Nat → Int → Nat → Nat
  | fuel + 1, check, streak =>
    if check ∈ dates then
      if streak + 1 > 365 then streak + 1
      else streakGo dates fuel (check - 1) (streak + 1)
    else streak
  | 0, _, streak => streak

/-- app.py `calculate_study_streak(user_id)`: reads `today = date.today()`
from the clock, starts with `streak = 0` and `check_date = today`, and runs
the backward walk over the user's study-log dates. -/
def calculate_study_streak (env : Env) (uid : Nat) : Nat :=
  streakGo (userStudyDates env uid) 366 env.sysToday 0

/-- Number of executions of the `while True` loop body performed by
`calculate_study_streak`: the same recursion as `streakGo`, counting one for
every body execution (a body that finds a log and continues, a body that
finds a log and breaks on the 365 cap, and a body that finds no log and
breaks each count one). -/
def streakGoIterations (dates : List Int) : Nat → Int → Nat → Nat
  | fuel + 1, check, streak =>
    if check ∈ dates then
      if streak + 1 > 365 then 1
      else 1 + streakGoIterations dates fuel (check - 1) (streak + 1)
    else 1
  | 0, _, _ => 0

/-- Loop-body execution count of `calculate_study_streak` on a given state. -/
def calculate_study_streak_iterations (env : Env) (uid : Nat) : Nat :=
  streakGoIterations (userStudyDates env uid) 366 env.sysToday 0

/-- One row of the `chapter_progress` table (models.py `ChapterProgress`),
with the columns the routes touch.  Datetimes (`last_revised_date`,
`updated_at`, `created_at`) are modelled as integer timestamps,
`last_revised_date` is nullable. -/
structure ChapterProgress where
  id : Nat
  user_id : Nat
  subject : String
  chapter_name : String
  chapter_order : Nat
  ncert_read : Bool
  lecture_watched : Bool
  questions_solved : Bool
  revised : Bool
  is_completed : Bool
  revision_count : Nat
  last_revised_date : Option Int
  created_at : Int
  updated_at : Int
deriving DecidableEq, Repr

/-- models.py `ChapterProgress.update_completion_status`:
`self.is_completed = all([self.ncert_read, self.lecture_watched,
self.questions_solved, self.revised])`. -/
def ChapterProgress.update_completion_status (c : ChapterProgress) : ChapterProgress :=
  { c with is_completed := c.ncert_read && c.lecture_watched && c.questions_solved && c.revised }

/-- The JSON body of a POST to `/update_chapter/<id>`: each of the four keys
may be present (with a boolean value) or absent, matching the
`if key in data` tests of the route. -/
structure UpdateData where
  ncert_read : Option Bool
  lecture_watched : Option Bool
  questions_solved : Option Bool
  revised : Option Bool
deriving DecidableEq, Repr

/-- The HTTP response of the `update_chapter` route: either the 403
`{error: Unauthorized}` payload or the success payload echoing
`is_completed` and `revision_count`. -/
inductive UpdateChapterResponse where
  | unauthorized
  | ok (is_completed : Bool) (revision_count : Nat)
deriving DecidableEq, Repr

/-- app.py `update_chapter(chapter_id)` (lines 275-307), acting on the
chapter row fetched by `get_or_404`.  `current_user_id` is the id of the
logged-in requester; `now` is the value `datetime.utcnow()` returns during
the request.  Returns the chapter row as left in the database together with
the HTTP response; on the 403 path the route returns before touching the
row. -/
def update_chapter (c : ChapterProgress) (current_user_id : Nat)
    (data : UpdateData) (now : Int) : ChapterProgress × UpdateChapterResponse :=
  if c.user_id ≠ current_user_id then
    (c, .unauthorized)
  else
    let c1 := match data.ncert_read with
      | some b => { c with ncert_read := b }
      | none => c
    let c2 := match data.lecture_watched with
      | some b => { c1 with lecture_watched := b }
      | none => c1
    let c3 := match data.questions_solved with
      | some b => { c2 with questions_solved := b }
      | none => c2
    let c4 := match data.revised with
      | some b =>
        let c' := { c3 with revised := b }
        if b then
          { c' with revision_count := c'.revision_count + 1, last_revised_date := some now }
        else c'
      | none => c3
    let c5 := c4.update_completion_status
    let c6 := { c5 with updated_at := now }
    (c6, .ok c6.is_completed c6.revision_count)

/-- One row of the `revision_logs` table as created by the `log_revision`
route. -/
structure RevisionLog where
  user_id : Nat
  chapter_progress_id : Nat
  revision_date : Int
  revision_number : Nat
  notes : String
  confidence_level : Option Nat
deriving DecidableEq, Repr

/-- The HTTP response of the `log_revision` route: either the 403 payload or
the success payload echoing `revision_count` and the stamped date. -/
inductive LogRevisionResponse where
  | unauthorized
  | ok (revision_count : Nat) (last_revised : Int)
deriving DecidableEq, Repr

/-- app.py `log_revision(chapter_id)` (lines 519-551), acting on the fetched
chapter row.  On success it unconditionally increments `revision_count`,
stamps `last_revised_date`, sets `revised = True`, recomputes the completion
status and inserts a `RevisionLog` row; on the 403 path it returns before
touching the row and inserts nothing. -/
def log_revision (c : ChapterProgress) (current_user_id : Nat)
    (notes : String) (confidence_level : Option Nat) (now : Int) :
    ChapterProgress × Option RevisionLog × LogRevisionResponse :=
  if c.user_id ≠ current_user_id then
    (c, none, .unauthorized)
  else
    let c1 := { c with
      revision_count := c.revision_count + 1,
      last_revised_date := some now,
      revised := true }
    let c2 := c1.update_completion_status
    let rev : RevisionLog := {
      user_id := current_user_id,
      chapter_progress_id := c2.id,
      revision_date := now,
      revision_number := c2.revision_count,
      notes := notes,
      confidence_level := confidence_level }
    (c2, some rev, .ok c2.revision_count now)

/-- Python's `round` on an exact value: round half to even.  The Python code
applies `round(x, 1)` to a binary floating-point quotient; the model uses the
exact rational value instead, which agrees except where binary representation
error moves a value across a rounding boundary.  The range facts proved below
do not depend on the tie-breaking rule. -/
def pyRoundHalfEven (x : ℚ) : ℤ :=
  let f := ⌊x⌋
  let r := x - f
  if r < 1 / 2 then f
  else if 1 / 2 < r then f + 1
  else if f % 2 = 0 then f else f + 1

/-- Rounding to one decimal place, as in `round(x, 1)`. -/
def round1 (x : ℚ) : ℚ :=
  (pyRoundHalfEven (10 * x) : ℚ) / 10

/-- models.py `User.get_progress_percentage`, with the user's
`chapter_progress` rows passed as a list: returns 0 when the user has no
rows, else `round((completed / total) * 100, 1)`. -/
def get_progress_percentage (chapters : List ChapterProgress) : ℚ :=
  let total_chapters := chapters.length
  if total_chapters = 0 then 0
  else
    let completed_chapters := (chapters.filter (fun ch => ch.is_completed)).length
    round1 (((completed_chapters : ℚ) / (total_chapters : ℚ)) * 100)

/-- models.py `User.get_subject_progress`, with the user's
`chapter_progress` rows passed as a list: filters the rows by subject,
returns 0 when none match (`if not subject_chapters`), else
`round((completed / len(subject_chapters)) * 100, 1)`. -/
def get_subject_progress (chapters : List ChapterProgress) (subject : String) : ℚ :=
  let subject_chapters := chapters.filter (fun ch => ch.subject == subject)
  if subject_chapters.length = 0 then 0
  else
    let completed := (subject_chapters.filter (fun ch => ch.is_completed)).length
    round1 (((completed : ℚ) / (subject_chapters.length : ℚ)) * 100)

/-- Concrete pathological state: user 1 has a study log on every day from
today (day 0) back through today minus 400. -/
def bigEnv : Env :=
  ⟨(List.range 401).map (fun n => ⟨1, -(n : Int)⟩), 0⟩

/-- Concrete chapter row owned by user 1 with all four flags already true
and five recorded revisions. -/
def chapterEx : ChapterProgress :=
  ⟨7, 1, "Physics", "Kinematics", 2, true, true, true, true, true, 5, some 50, 10, 10⟩

/-- The completion invariant of a chapter row: `is_completed` equals the
conjunction of the four tracking flags. -/
def completionInvariant (c : ChapterProgress) : Prop :=
  c.is_completed = (c.ncert_read && c.lecture_watched && c.questions_solved && c.revised)

/-- When the first `k` days starting at `check` are all present and day `k`
is the first gap, the loop adds exactly `k` to the running counter, provided
the 365 cap is not hit on the way and the fuel covers the `k` steps. -/
lemma streakGo_spec (dates : List Int) :
    ∀ (k fuel : Nat) (check : Int) (streak : Nat),
      (∀ i : Nat, i < k → check - (i : Int) ∈ dates) →
      check - (k : Int) ∉ dates →
      streak + k ≤ 365 → k ≤ fuel →
      streakGo dates fuel check streak = streak + k := by
  intro k
  induction k with
  | zero =>
    intro fuel check streak _ habs _ _
    have hc : check ∉ dates := by simpa using habs
    match fuel with
    | 0 => simp [streakGo]
    | f + 1 => simp [streakGo, hc]
  | succ k ih =>
    intro fuel check streak hmem habs hle hfuel
    match fuel with
    | 0 => exact absurd hfuel (by omega)
    | f + 1 =>
      have hc : check ∈ dates := by simpa using hmem 0 (Nat.succ_pos k)
      have hcap : ¬ (streak + 1 > 365) := by omega
      have hmem' : ∀ i : Nat, i < k → check - 1 - (i : Int) ∈ dates := by
        intro i hi
        have h2 : check - 1 - (i : Int) = check - ((i + 1 : Nat) : Int) := by
          push_cast; ring
        rw [h2]; exact hmem (i + 1) (by omega)
      have habs' : check - 1 - (k : Int) ∉ dates := by
        have h2 : check - 1 - (k : Int) = check - ((k + 1 : Nat) : Int) := by
          push_cast; ring
        rw [h2]; exact habs
      have := ih f (check - 1) (streak + 1) hmem' habs' (by omega) (by omega)
      simp only [streakGo, if_pos hc, if_neg hcap, this]
      omega

/-- When every day the remaining fuel can reach is present, the loop runs to
its 365 cap and returns 366 (under the top-level invariant
`streak + fuel = 366`). -/
lemma streakGo_cap (dates : List Int) :
    ∀ (fuel : Nat) (check : Int) (streak : Nat),
      streak + fuel = 366 →
      (∀ i : Nat, i < fuel → check - (i : Int) ∈ dates) →
      streakGo dates fuel check streak = 366 := by
  intro fuel
  induction fuel with
  | zero =>
    intro check streak h _
    simp only [streakGo]; omega
  | succ f ih =>
    intro check streak h hmem
    have hc : check ∈ dates := by simpa using hmem 0 (by omega)
    by_cases hcap : streak + 1 > 365
    · simp only [streakGo, if_pos hc, if_pos hcap]; omega
    · have hmem' : ∀ i : Nat, i < f → check - 1 - (i : Int) ∈ dates := by
        intro i hi
        have h2 : check - 1 - (i : Int) = check - ((i + 1 : Nat) : Int) := by
          push_cast; ring
        rw [h2]; exact hmem (i + 1) (by omega)
      simp only [streakGo, if_pos hc, if_neg hcap]
      exact ih (check - 1) (streak + 1) (by omega) hmem'

/-- Counting variant of `streakGo_cap`: on an all-present prefix the loop
body executes exactly `fuel` times before the cap break. -/
lemma streakGoIterations_cap (dates : List Int) :
    ∀ (fuel : Nat) (check : Int) (streak : Nat),
      streak + fuel = 366 →
      (∀ i : Nat, i < fuel → check - (i : Int) ∈ dates) →
      streakGoIterations dates fuel check streak = fuel := by
  intro fuel
  induction fuel with
  | zero =>
    intro check streak _ _
    simp [streakGoIterations]
  | succ f ih =>
    intro check streak h hmem
    have hc : check ∈ dates := by simpa using hmem 0 (by omega)
    by_cases hcap : streak + 1 > 365
    · have hf : f = 0 := by omega
      simp [streakGoIterations, hc, hcap, hf]
    · have hmem' : ∀ i : Nat, i < f → check - 1 - (i : Int) ∈ dates := by
        intro i hi
        have h2 : check - 1 - (i : Int) = check - ((i + 1 : Nat) : Int) := by
          push_cast; ring
        rw [h2]; exact hmem (i + 1) (by omega)
      have := ih (check - 1) (streak + 1) (by omega) hmem'
      simp only [streakGoIterations, if_pos hc, if_neg hcap, this]
      omega

/-- The loop body never executes more often than the fuel allows. -/
lemma streakGoIterations_le (dates : List Int) :
    ∀ (fuel : Nat) (check : Int) (streak : Nat),
      streakGoIterations dates fuel check streak ≤ fuel := by
  intro fuel
  induction fuel with
  | zero => intro check streak; simp [streakGoIterations]
  | succ f ih =>
    intro check streak
    by_cases hc : check ∈ dates
    · by_cases hcap : streak + 1 > 365
      · simp [streakGoIterations, hc, hcap]
      · have := ih (check - 1) (streak + 1)
        simp only [streakGoIterations, if_pos hc, if_neg hcap]
        omega
    · simp [streakGoIterations, hc]

/-- The loop consults its date list only through membership tests. -/
lemma streakGo_congr (l1 l2 : List Int) (h : ∀ d : Int, d ∈ l1 ↔ d ∈ l2) :
    ∀ (fuel : Nat) (check : Int) (streak : Nat),
      streakGo l1 fuel check streak = streakGo l2 fuel check streak := by
  intro fuel
  induction fuel with
  | zero => intro check streak; simp [streakGo]
  | succ f ih =>
    intro check streak
    by_cases hc : check ∈ l1
    · have hc2 : check ∈ l2 := (h check).mp hc
      by_cases hcap : streak + 1 > 365
      · simp [streakGo, hc, hc2, hcap]
      · simp only [streakGo, if_pos hc, if_pos hc2, if_neg hcap]
        exact ih (check - 1) (streak + 1)
    · have hc2 : check ∉ l2 := fun hx => hc ((h check).mpr hx)
      simp [streakGo, hc, hc2]

/-- Every day from today back through today minus 400 appears among user 1's
study dates in `bigEnv`. -/
lemma bigEnv_mem (i : Nat) (hi : i ≤ 400) :
    bigEnv.sysToday - (i : Int) ∈ userStudyDates bigEnv 1 := by
  show (0 : Int) - (i : Int) ∈ userStudyDates bigEnv 1
  simp only [userStudyDates, bigEnv, List.filter_map, List.map_map,
    List.mem_map, List.mem_filter, Function.comp, List.mem_range]
  exact ⟨i, by simpa using by omega, by ring⟩

/-- An integer lower bound below the argument bounds the rounded value. -/
lemma pyRoundHalfEven_le_of_le (x : ℚ) (n : Int) (h : (n : ℚ) ≤ x) :
    n ≤ pyRoundHalfEven x := by
  have hf : n ≤ ⌊x⌋ := Int.le_floor.mpr h
  unfold pyRoundHalfEven
  dsimp only
  split_ifs <;> omega

/-- An integer upper bound on the argument bounds the rounded value. -/
lemma pyRoundHalfEven_le (x : ℚ) (n : Int) (h : x ≤ (n : ℚ)) :
    pyRoundHalfEven x ≤ n := by
  have hf : ⌊x⌋ ≤ n := by
    have := Int.floor_le_floor h
    simpa using this
  have hfx : (⌊x⌋ : ℚ) ≤ x := Int.floor_le x
  unfold pyRoundHalfEven
  dsimp only
  split_ifs with h1 h2 h3
  · exact hf
  · -- the fractional part exceeds 1/2, so the floor is strictly below n
    have : (⌊x⌋ : ℚ) + 1 / 2 < x := by linarith
    have hlt : (⌊x⌋ : ℚ) < (n : ℚ) := by linarith
    have : ⌊x⌋ < n := by exact_mod_cast hlt
    omega
  · exact hf
  · -- the fractional part equals 1/2, so the floor is strictly below n
    have hhalf : x - (⌊x⌋ : ℚ) = 1 / 2 := le_antisymm (not_lt.mp h2) (not_lt.mp h1)
    have hlt : (⌊x⌋ : ℚ) < (n : ℚ) := by linarith
    have : ⌊x⌋ < n := by exact_mod_cast hlt
    omega

/-- Rounding to one decimal keeps a value of `[0, 100]` inside `[0, 100]`. -/
lemma round1_bounds (x : ℚ) (h0 : 0 ≤ x) (h1 : x ≤ 100) :
    0 ≤ round1 x ∧ round1 x ≤ 100 := by
  have hlo : (0 : Int) ≤ pyRoundHalfEven (10 * x) :=
    pyRoundHalfEven_le_of_le (10 * x) 0 (by push_cast; linarith)
  have hhi : pyRoundHalfEven (10 * x) ≤ (1000 : Int) :=
    pyRoundHalfEven_le (10 * x) 1000 (by push_cast; linarith)
  have hlo' : (0 : ℚ) ≤ (pyRoundHalfEven (10 * x) : ℚ) := by exact_mod_cast hlo
  have hhi' : (pyRoundHalfEven (10 * x) : ℚ) ≤ 1000 := by exact_mod_cast hhi
  constructor
  · unfold round1; positivity
  · unfold round1; linarith

/-- A completion ratio scaled to a percentage lies in `[0, 100]`. -/
lemma ratio_bounds (c n : Nat) (hn : n ≠ 0) (hc : c ≤ n) :
    0 ≤ ((c : ℚ) / (n : ℚ)) * 100 ∧ ((c : ℚ) / (n : ℚ)) * 100 ≤ 100 := by
  have hn' : (0 : ℚ) < (n : ℚ) := by exact_mod_cast Nat.pos_of_ne_zero hn
  have hc' : (c : ℚ) ≤ (n : ℚ) := by exact_mod_cast hc
  constructor
  · positivity
  · have : (c : ℚ) / (n : ℚ) ≤ 1 := (div_le_one hn').mpr hc'
    linarith

/-- C1 counterexample: on the state where user 1 has a study log on today
and on each of the 400 preceding days, `calculate_study_streak` returns 366,
not 365 — the loop breaks only once the counter exceeds 365, so the 366th
consecutive day is still counted. -/
theorem C1_counterexample :
    calculate_study_streak bigEnv 1 = 366 ∧ calculate_study_streak bigEnv 1 ≠ 365 := by
  have h : calculate_study_streak bigEnv 1 = 366 := by
    unfold calculate_study_streak
    exact streakGo_cap (userStudyDates bigEnv 1) 366 bigEnv.sysToday 0 rfl
      (fun i hi => bigEnv_mem i (by omega))
  exact ⟨h, by omega⟩

/-- C1 (amended): whenever today and each of the 400 preceding days are all
present among the user's study dates, `calculate_study_streak` returns
exactly 366: the loop breaks when the counter exceeds 365, so the cap on the
reported streak is 366. -/
theorem C1_streak_cap (env : Env) (uid : Nat)
    (h : ∀ i : Nat, i ≤ 400 → env.sysToday - (i : Int) ∈ userStudyDates env uid) :
    calculate_study_streak env uid = 366 := by
  unfold calculate_study_streak
  exact streakGo_cap (userStudyDates env uid) 366 env.sysToday 0 rfl
    (fun i hi => h i (by omega))

/-- C1 witness: the amended cap theorem applied to the concrete 401-day
state. -/
theorem C1_streak_cap_witness : calculate_study_streak bigEnv 1 = 366 :=
  C1_streak_cap bigEnv 1 (fun i hi => bigEnv_mem i hi)

/-- C4: for every state and user, if the first `k ≤ 365` days counting back
from today are all present among the user's study dates and day `k` is
absent, the streak is exactly `k`; in particular the streak is 0 when today
itself is absent and when the user has no study dates at all, and the result
is a natural number, hence never negative. -/
theorem C4_streak_walk (env : Env) (uid : Nat) :
    (∀ k : Nat, k ≤ 365 →
      (∀ i : Nat, i < k → env.sysToday - (i : Int) ∈ userStudyDates env uid) →
      env.sysToday - (k : Int) ∉ userStudyDates env uid →
      calculate_study_streak env uid = k) ∧
    (env.sysToday ∉ userStudyDates env uid → calculate_study_streak env uid = 0) ∧
    (userStudyDates env uid = [] → calculate_study_streak env uid = 0) := by
  have main : ∀ k : Nat, k ≤ 365 →
      (∀ i : Nat, i < k → env.sysToday - (i : Int) ∈ userStudyDates env uid) →
      env.sysToday - (k : Int) ∉ userStudyDates env uid →
      calculate_study_streak env uid = k := by
    intro k hk hmem habs
    unfold calculate_study_streak
    have := streakGo_spec (userStudyDates env uid) k 366 env.sysToday 0
      hmem habs (by omega) (by omega)
    simpa using this
  refine ⟨main, ?_, ?_⟩
  · intro habs
    exact main 0 (by omega) (fun i hi => absurd hi (by omega)) (by simpa using habs)
  · intro hempty
    exact main 0 (by omega) (fun i hi => absurd hi (by omega)) (by simp [hempty])

/-- C4 witness: on the state where user 1 studied on days 0 and -1 only,
the walk theorem yields a streak of exactly 2, and on the empty state it
yields 0. -/
theorem C4_streak_walk_witness :
    calculate_study_streak ⟨[⟨1, 0⟩, ⟨1, -1⟩], 0⟩ 1 = 2 ∧
    calculate_study_streak ⟨[], 0⟩ 1 = 0 :=
  ⟨(C4_streak_walk ⟨[⟨1, 0⟩, ⟨1, -1⟩], 0⟩ 1).1 2 (by omega)
      (by decide) (by decide),
    (C4_streak_walk ⟨[], 0⟩ 1).2.2 rfl⟩

/-- C6 counterexample: on the 401-day state the `while True` body executes
366 times, so the walk is not bounded by 365 iterations. -/
theorem C6_counterexample :
    calculate_study_streak_iterations bigEnv 1 = 366 ∧
    ¬ calculate_study_streak_iterations bigEnv 1 ≤ 365 := by
  have h : calculate_study_streak_iterations bigEnv 1 = 366 := by
    unfold calculate_study_streak_iterations
    exact streakGoIterations_cap (userStudyDates bigEnv 1) 366 bigEnv.sysToday 0 rfl
      (fun i hi => bigEnv_mem i (by omega))
  exact ⟨h, by omega⟩

/-- C6 (amended): the streak calculation terminates on every input — the
loop body executes at most 366 times regardless of the size or span of the
study-date set (the break fires once the counter exceeds 365). -/
theorem C6_iterations_bounded (env : Env) (uid : Nat) :
    calculate_study_streak_iterations env uid ≤ 366 :=
  streakGoIterations_le (userStudyDates env uid) 366 env.sysToday 0

/-- C8: the streak depends only on which dates are present, so computing it
over the deduplicated date list (one entry per distinct calendar day, no
matter how many sessions shared a day) gives the same result as the raw log
list. -/
theorem C8_dedup_invariant (env : Env) (uid : Nat) :
    streakGo ((userStudyDates env uid).dedup) 366 env.sysToday 0 =
      calculate_study_streak env uid := by
  unfold calculate_study_streak
  exact streakGo_congr _ _ (fun d => List.mem_dedup) 366 env.sysToday 0

/-- C9 counterexample: two states with literally identical study-log tables
(hence identical study-date sets for user 1) but different system-clock
dates produce different streaks — the function has no `today` parameter and
reads `date.today()` itself, so its result is not determined by the
study-date set together with any caller-supplied value. -/
theorem C9_counterexample :
    userStudyDates ⟨[⟨1, 0⟩], 0⟩ 1 = userStudyDates ⟨[⟨1, 0⟩], 5⟩ 1 ∧
    calculate_study_streak ⟨[⟨1, 0⟩], 0⟩ 1 = 1 ∧
    calculate_study_streak ⟨[⟨1, 0⟩], 5⟩ 1 = 0 := by
  refine ⟨rfl, ?_, ?_⟩ <;> decide

/-- C9 (amended): the streak calculator is deterministic in the study-date
set and the system-clock date it reads via `date.today()`: any two
invocations observing the same set of study dates (membership-equivalent
date lists, however ordered or duplicated) and the same clock date return
the same integer. -/
theorem C9_deterministic (env1 env2 : Env) (uid1 uid2 : Nat)
    (hdates : ∀ d : Int, d ∈ userStudyDates env1 uid1 ↔ d ∈ userStudyDates env2 uid2)
    (htoday : env1.sysToday = env2.sysToday) :
    calculate_study_streak env1 uid1 = calculate_study_streak env2 uid2 := by
  unfold calculate_study_streak
  rw [htoday]
  exact streakGo_congr _ _ hdates 366 env2.sysToday 0

/-- C9 witness: determinism applied to two states with the same study-date
set (two sessions on day 0 versus one) under the same clock date. -/
theorem C9_deterministic_witness :
    calculate_study_streak ⟨[⟨1, 0⟩, ⟨1, 0⟩], 0⟩ 1 =
      calculate_study_streak ⟨[⟨1, 0⟩], 0⟩ 1 :=
  C9_deterministic ⟨[⟨1, 0⟩, ⟨1, 0⟩], 0⟩ ⟨[⟨1, 0⟩], 0⟩ 1 1
    (fun d => by
      show d ∈ [(0 : Int), 0] ↔ d ∈ [(0 : Int)]
      simp)
    rfl

/-- C2: after a successful `update_chapter` request (any combination of
present/absent flag keys) and after a successful `log_revision` request, the
stored row satisfies `is_completed = ncert_read && lecture_watched &&
questions_solved && revised` — both routes recompute the conjunction via
`update_completion_status` before committing, and nothing else in the code
assigns `is_completed`. -/
theorem C2_completion_invariant (c : ChapterProgress) (uid : Nat)
    (data : UpdateData) (notes : String) (conf : Option Nat) (now : Int)
    (h : c.user_id = uid) :
    completionInvariant (update_chapter c uid data now).1 ∧
    completionInvariant (log_revision c uid notes conf now).1 := by
  subst h
  constructor
  · rcases data with ⟨a, l, q, r⟩
    cases a <;> cases l <;> cases q <;> rcases r with _ | b <;>
      simp [completionInvariant, update_chapter, ChapterProgress.update_completion_status]
  · simp [completionInvariant, log_revision, ChapterProgress.update_completion_status]

/-- C2 witness: the invariant holds concretely after an owner's request that
turns `ncert_read` off on the fully-completed chapter row. -/
theorem C2_completion_invariant_witness :
    completionInvariant (update_chapter chapterEx 1 ⟨some false, none, none, none⟩ 100).1 ∧
    completionInvariant (log_revision chapterEx 1 "" none 100).1 :=
  ⟨(C2_completion_invariant chapterEx 1 ⟨some false, none, none, none⟩ "" none 100 rfl).1,
    (C2_completion_invariant chapterEx 1 ⟨some false, none, none, none⟩ "" none 100 rfl).2⟩

/-- C3: `update_completion_status` sets `is_completed` to the conjunction of
the four flags: it is true iff `ncert_read`, `lecture_watched`,
`questions_solved` and `revised` are all true, a total function covering all
16 boolean combinations with no error conditions. -/
theorem C3_truth_table (c : ChapterProgress) :
    c.update_completion_status.is_completed =
      (c.ncert_read && c.lecture_watched && c.questions_solved && c.revised) ∧
    (c.update_completion_status.is_completed = true ↔
      (c.ncert_read = true ∧ c.lecture_watched = true ∧
        c.questions_solved = true ∧ c.revised = true)) := by
  refine ⟨rfl, ?_⟩
  simp [ChapterProgress.update_completion_status, Bool.and_eq_true, and_assoc]

/-- C5 counterexample: `chapterEx` already has `revised = true` with
`revision_count = 5` and `last_revised_date = 50`, yet an owner's request
that sets `revised` to true again increments the counter to 6 and restamps
the timestamp — the route checks only the requested value, not a
false-to-true transition. -/
theorem C5_counterexample :
    chapterEx.revised = true ∧ chapterEx.revision_count = 5 ∧
    (update_chapter chapterEx 1 ⟨none, none, none, some true⟩ 100).1.revision_count = 6 ∧
    (update_chapter chapterEx 1 ⟨none, none, none, some true⟩ 100).1.last_revised_date =
      some 100 := by
  refine ⟨rfl, rfl, ?_, ?_⟩ <;> decide

/-- C5 (amended): in `update_chapter` the revision counter is incremented
and the timestamp stamped exactly when the request carries `revised` with
value true — regardless of the flag's previous value; a request carrying
`revised = false` or omitting the key leaves `revision_count` and
`last_revised_date` unchanged. -/
theorem C5_revision_increment (c : ChapterProgress) (uid : Nat)
    (data : UpdateData) (now : Int) (h : c.user_id = uid) :
    (data.revised = some true →
      (update_chapter c uid data now).1.revision_count = c.revision_count + 1 ∧
      (update_chapter c uid data now).1.last_revised_date = some now) ∧
    (data.revised = some false ∨ data.revised = none →
      (update_chapter c uid data now).1.revision_count = c.revision_count ∧
      (update_chapter c uid data now).1.last_revised_date = c.last_revised_date) := by
  subst h
  rcases data with ⟨a, l, q, r⟩
  constructor
  · intro hr
    simp only at hr
    subst hr
    cases a <;> cases l <;> cases q <;>
      simp [update_chapter, ChapterProgress.update_completion_status]
  · intro hr
    rcases hr with hr | hr <;> simp only at hr <;> subst hr <;>
      cases a <;> cases l <;> cases q <;>
        simp [update_chapter, ChapterProgress.update_completion_status]

/-- C5 witness: the amended increment rule applied to the concrete
already-revised chapter row. -/
theorem C5_revision_increment_witness :
    (update_chapter chapterEx 1 ⟨none, none, none, some false⟩ 100).1.revision_count =
      chapterEx.revision_count ∧
    (update_chapter chapterEx 1 ⟨none, none, none, some false⟩ 100).1.last_revised_date =
      chapterEx.last_revised_date :=
  (C5_revision_increment chapterEx 1 ⟨none, none, none, some false⟩ 100 rfl).2
    (Or.inl rfl)

/-- C7: when the requester is not the row's owner, both `update_chapter` and
`log_revision` return the 403 Unauthorized response, leave the chapter row
exactly as it was, and `log_revision` inserts no revision-log row. -/
theorem C7_unauthorized (c : ChapterProgress) (uid : Nat) (data : UpdateData)
    (notes : String) (conf : Option Nat) (now : Int) (h : c.user_id ≠ uid) :
    update_chapter c uid data now = (c, .unauthorized) ∧
    log_revision c uid notes conf now = (c, none, .unauthorized) := by
  constructor
  · unfold update_chapter
    rw [if_pos h]
  · unfold log_revision
    rw [if_pos h]

/-- C7 witness: a request by user 2 against user 1's chapter row is rejected
with the row untouched. -/
theorem C7_unauthorized_witness :
    update_chapter chapterEx 2 ⟨some false, none, none, some true⟩ 100 =
      (chapterEx, .unauthorized) ∧
    log_revision chapterEx 2 "notes" (some 3) 100 = (chapterEx, none, .unauthorized) :=
  C7_unauthorized chapterEx 2 ⟨some false, none, none, some true⟩ "notes" (some 3) 100
    (by decide)

/-- C10: the progress helpers are total — with zero chapter rows
`get_progress_percentage` returns 0, with zero rows of the given subject
`get_subject_progress` returns 0 (the division is always guarded), and
otherwise each returns `round((completed / total) * 100, 1)`, a value between
0 and 100. -/
theorem C10_progress_total (chapters : List ChapterProgress) (subject : String) :
    (chapters.length = 0 → get_progress_percentage chapters = 0) ∧
    ((chapters.filter (fun ch => ch.subject == subject)).length = 0 →
      get_subject_progress chapters subject = 0) ∧
    (chapters.length ≠ 0 →
      get_progress_percentage chapters =
        round1 ((((chapters.filter (fun ch => ch.is_completed)).length : ℚ) /
          (chapters.length : ℚ)) * 100) ∧
      0 ≤ get_progress_percentage chapters ∧ get_progress_percentage chapters ≤ 100) ∧
    ((chapters.filter (fun ch => ch.subject == subject)).length ≠ 0 →
      get_subject_progress chapters subject =
        round1 (((((chapters.filter (fun ch => ch.subject == subject)).filter
            (fun ch => ch.is_completed)).length : ℚ) /
          ((chapters.filter (fun ch => ch.subject == subject)).length : ℚ)) * 100) ∧
      0 ≤ get_subject_progress chapters subject ∧
        get_subject_progress chapters subject ≤ 100) := by
  refine ⟨?_, ?_, ?_, ?_⟩
  · intro h
    simp [get_progress_percentage, h]
  · intro h
    simp only [get_subject_progress]
    rw [if_pos h]
  · intro h
    have hval : get_progress_percentage chapters =
        round1 ((((chapters.filter (fun ch => ch.is_completed)).length : ℚ) /
          (chapters.length : ℚ)) * 100) := by
      simp only [get_progress_percentage]
      rw [if_neg h]
    have hc : (chapters.filter (fun ch => ch.is_completed)).length ≤ chapters.length :=
      List.length_filter_le _ _
    have hratio := ratio_bounds (chapters.filter (fun ch => ch.is_completed)).length
      chapters.length h hc
    have hb := round1_bounds _ hratio.1 hratio.2
    exact ⟨hval, by rw [hval]; exact hb.1, by rw [hval]; exact hb.2⟩
  · intro h
    have hval : get_subject_progress chapters subject =
        round1 (((((chapters.filter (fun ch => ch.subject == subject)).filter
            (fun ch => ch.is_completed)).length : ℚ) /
          ((chapters.filter (fun ch => ch.subject == subject)).length : ℚ)) * 100) := by
      simp only [get_subject_progress]
      rw [if_neg h]
    have hc : ((chapters.filter (fun ch => ch.subject == subject)).filter
        (fun ch => ch.is_completed)).length ≤
        (chapters.filter (fun ch => ch.subject == subject)).length :=
      List.length_filter_le _ _
    have hratio := ratio_bounds _ _ h hc
    have hb := round1_bounds _ hratio.1 hratio.2
    exact ⟨hval, by rw [hval]; exact hb.1, by rw [hval]; exact hb.2⟩

/-- C10 witness: the helpers at concrete inputs — zero rows give 0, and a
one-completed-of-one list gives a value inside the bounds. -/
theorem C10_progress_total_witness :
    get_progress_percentage [] = 0 ∧
    0 ≤ get_progress_percentage [chapterEx] ∧
    get_progress_percentage [chapterEx] ≤ 100 ∧
    get_subject_progress [chapterEx] "Botany" = 0 :=
  ⟨(C10_progress_total [] "Physics").1 rfl,
    ((C10_progress_total [chapterEx] "Physics").2.2.1 (by decide)).2.1,
    ((C10_progress_total [chapterEx] "Physics").2.2.1 (by decide)).2.2,
    (C10_progress_total [chapterEx] "Botany").2.1 (by decide)⟩

end NeetTracker
